import Mathlib

/-!
Shallow embedding of the virtual-football-td simulation core
(`src/virtualtd`), with theorems settling the frozen claims about it.

Conventions of the embedding:
* Python floats are modelled as rationals (`ℚ`).
* `random.uniform(a, b)` is modelled as `pyUniform a b r` where `r` is the
  unit draw produced by `random.random()` (so `0 ≤ r ≤ 1` for Python draws,
  and `uniform(a, b) = a + (b - a) * r`).
* Rejection-sampled draws (ages) are modelled as a parameter assumed to lie
  in the accepted range, which is exactly what the rejection loop guarantees.
* Python `int(x)` truncation toward zero is `pyTrunc`.
* pandas data frames of players are modelled as `List Row` with one field
  per column; vectorised column updates become `List.map`, boolean-mask row
  selection becomes `List.filter`.
* A Python expression that raises is modelled in `Except String`.
-/

namespace VirtualTD

/-- Python `int(x)`: truncation toward zero. -/
def pyTrunc (q : ℚ) : ℤ := if 0 ≤ q then ⌊q⌋ else ⌈q⌉

/-- pandas `Series.mean()` over a list of rationals. -/
def listMean (l : List ℚ) : ℚ := l.sum / l.length

/-- Python `random.uniform(lo, hi)` with explicit unit draw `r`:
`lo + (hi - lo) * random()`. -/
def pyUniform (lo hi r : ℚ) : ℚ := lo + r * (hi - lo)

/-- `virtualtd.generators.model.SquadHierarchy`. -/
inductive SquadHierarchy
  | STARTER
  | SUB
  | ACADEMY
deriving DecidableEq

/-- `virtualtd.generators.model.Position`. -/
inductive Position
  | GOALKEEPER
  | LEFT_BACK
  | LEFT_CENTRE_BACK
  | RIGHT_CENTRE_BACK
  | RIGHT_BACK
  | LEFT_MID
  | CENTRE_MID
  | RIGHT_MID
  | LEFT_WING
  | STRIKER
  | RIGHT_WING
deriving DecidableEq

/-- `virtualtd.generators.model.Player` (dataclass). -/
structure Player where
  player_name : String
  contract_years : ℚ
  age : ℚ
  position : Position
  skill_level : ℚ
  potential_level : ℚ
  player_value : ℚ
  squad_hierarchy : SquadHierarchy
  injury_proneness : ℚ
deriving DecidableEq

/-- `virtualtd.simulators.predictors.ValuePredictor`: the instance attributes
`_age`, `_contract`, `_skill`, `_potential`, `_injury`, `_base_value`.
`contract` is mutable state: `_get_contract_multiplier` overwrites it. -/
structure ValuePredictor where
  age : ℚ
  contract : ℚ
  skill : ℚ
  potential : ℚ
  injury : ℚ
  base_value : ℚ
deriving DecidableEq

/-- `ValuePredictor._get_contract_multiplier`. The source executes
`self._contract = int(self._contract * 12)` before the comparison, so the
method both returns the multiplier and mutates the predictor state. -/
def ValuePredictor.getContractMultiplier (s : ValuePredictor) : ℚ × ValuePredictor :=
  let c : ℤ := pyTrunc (s.contract * 12)
  (if 0 < c then 1 + 36 / (c : ℚ) else 0, { s with contract := (c : ℚ) })

/-- `ValuePredictor._get_age_multiplier`: `27 / self._age`. -/
def ValuePredictor.getAgeMultiplier (s : ValuePredictor) : ℚ := 27 / s.age

/-- `ValuePredictor._get_skill_value`: `self._skill ** 2 * self._base_value`. -/
def ValuePredictor.getSkillValue (s : ValuePredictor) : ℚ := s.skill ^ 2 * s.base_value

/-- `ValuePredictor._get_potential_value`:
`0.5 * (self._potential ** 2 * self._base_value - self._get_skill_value())`. -/
def ValuePredictor.getPotentialValue (s : ValuePredictor) : ℚ :=
  0.5 * (s.potential ^ 2 * s.base_value - s.getSkillValue)

/-- `ValuePredictor._get_injury_multiplier`: `1 - self._injury`. -/
def ValuePredictor.getInjuryMultiplier (s : ValuePredictor) : ℚ := 1 - s.injury

/-- `ValuePredictor.predict_player_value`. Returns the predicted value and
the predictor state after the call (the contract attribute has been
overwritten by `_get_contract_multiplier`). -/
def ValuePredictor.predictPlayerValue (s : ValuePredictor) : ℚ × ValuePredictor :=
  let value := s.getSkillValue + s.getPotentialValue
  let am := s.getAgeMultiplier
  let cm := s.getContractMultiplier
  (value * am * cm.1 * cm.2.getInjuryMultiplier, cm.2)

/-- A single call of `predict_player_value` on a freshly constructed
`ValuePredictor(age, contract, skill, potential, injury)` with the default
`base_value = 1000`, as done by `_update_transfer_value` and
`_set_player_value` in the source. -/
def predictValueOnce (age contract skill potential injury : ℚ) : ℚ :=
  (ValuePredictor.predictPlayerValue ⟨age, contract, skill, potential, injury, 1000⟩).1

/-- `virtualtd.simulators.predictors.MatchPredictor`: instance attributes
`_skill_a`, `_skill_b`, `_win_prob_a`, `_draw_prob`, `_win_prob_b`. -/
structure MatchPredictor where
  skill_a : ℚ
  skill_b : ℚ
  win_prob_a : ℚ
  draw_prob : ℚ
  win_prob_b : ℚ
deriving DecidableEq

/-- `MatchPredictor.__init__`: every probability starts at `100 / 3`. -/
def MatchPredictor.init (a b : ℚ) : MatchPredictor :=
  { skill_a := a, skill_b := b, win_prob_a := 100 / 3, draw_prob := 100 / 3
    win_prob_b := 100 / 3 }

/-- `MatchPredictor._set_draw_probability`:
`self._draw_prob *= abs(self._skill_a / 100 - self._skill_b / 100)`. -/
def MatchPredictor.setDrawProbability (s : MatchPredictor) : MatchPredictor :=
  { s with draw_prob := s.draw_prob * |s.skill_a / 100 - s.skill_b / 100| }

/-- `MatchPredictor._set_win_probability`. -/
def MatchPredictor.setWinProbability (s : MatchPredictor) : MatchPredictor :=
  let combined_win_prob := 100 - s.draw_prob
  let team_a_win_share := 50 + (s.skill_a - s.skill_b)
  let team_b_win_share := 50 + (s.skill_b - s.skill_a)
  { s with
    win_prob_a := team_a_win_share / 100 * combined_win_prob
    win_prob_b := team_b_win_share / 100 * combined_win_prob }

/-- `MatchPredictor.generate_prob_distribution`. -/
def MatchPredictor.generateProbDistribution (s : MatchPredictor) : MatchPredictor :=
  s.setDrawProbability.setWinProbability

/-- `MatchSimulator.simulate_line_up`. The stochastic `get_set_line_up`
draws of both `LineUpPredictor`s are modelled as streams of drawn line-ups
(each line-up being the list of its players' skill levels): iteration `i`
uses `homeDraws i` and `awayDraws i`. The returned pair is exactly the
source's `return` expression: both components are built from
`home_team_skill`. -/
def simulateLineUp (homeDraws awayDraws : ℕ → List ℚ) (n : ℕ) : ℚ × ℚ :=
  let home_team_skill := (List.range n).map fun i => listMean (homeDraws i)
  let away_team_skill := (List.range n).map fun i => listMean (awayDraws i)
  (home_team_skill.sum / home_team_skill.length,
   home_team_skill.sum / home_team_skill.length)

/-- `virtualtd.generators.constraints.SkillConstraint`. -/
structure SkillConstraint where
  team_strength : ℚ
  strength_sd : ℚ
deriving DecidableEq

/-- `SkillConstraint._get_valid_range(range_k, shift)`. Note that the upper
bound of the non-clamped branch is computed from `self._team_strength`, not
from the shifted centre `mu`. -/
def SkillConstraint.getValidRange (c : SkillConstraint) (range_k shift : ℚ) : ℚ × ℚ :=
  let mu := c.team_strength - shift
  let lower := if mu - range_k > 0 then mu - range_k else 0
  let upper := if mu + range_k < 100 then c.team_strength + range_k else 100
  (lower, upper)

/-- `SkillConstraint.get_starter_skill` with explicit unit draw `r`. -/
def SkillConstraint.getStarterSkill (c : SkillConstraint) (r : ℚ) : ℚ :=
  let p := c.getValidRange (0.5 * c.strength_sd) 0
  pyUniform p.1 p.2 r

/-- `SkillConstraint.get_sub_skill` with explicit unit draw `r`. -/
def SkillConstraint.getSubSkill (c : SkillConstraint) (r : ℚ) : ℚ :=
  let p := c.getValidRange (0.5 * c.strength_sd) c.strength_sd
  pyUniform p.1 p.2 r

/-- `SkillConstraint.get_academy_skill` with explicit unit draw `r`. -/
def SkillConstraint.getAcademySkill (c : SkillConstraint) (r : ℚ) : ℚ :=
  let p := c.getValidRange (0.5 * c.strength_sd) (1.5 * c.strength_sd)
  pyUniform p.1 p.2 r

/-- `virtualtd.generators.constraints.PotentialConstraint`. -/
structure PotentialConstraint where
  age : ℚ
  skill_level : ℚ
  strength_sd : ℚ
deriving DecidableEq

/-- `PotentialConstraint._get_young_player_potential`:
`random.uniform(self._skill_level, 100)`. -/
def PotentialConstraint.getYoungPlayerPotential (c : PotentialConstraint) (r : ℚ) : ℚ :=
  pyUniform c.skill_level 100 r

/-- `PotentialConstraint._get_prime_player_potential`:
`random.uniform(self._skill_level, self._skill_level + self._strength_sd)`. -/
def PotentialConstraint.getPrimePlayerPotential (c : PotentialConstraint) (r : ℚ) : ℚ :=
  pyUniform c.skill_level (c.skill_level + c.strength_sd) r

/-- `PotentialConstraint._get_old_player_potential`: the current skill. -/
def PotentialConstraint.getOldPlayerPotential (c : PotentialConstraint) : ℚ :=
  c.skill_level

/-- `PotentialConstraint.get_potential`. -/
def PotentialConstraint.getPotential (c : PotentialConstraint) (r : ℚ) : ℚ :=
  if c.age ≤ 24 then c.getYoungPlayerPotential r
  else if 24 < c.age ∧ c.age < 28 then c.getPrimePlayerPotential r
  else c.getOldPlayerPotential

/-- `PlayerGenerator._set_skill_level`, dispatching on the profile's
hierarchy tier exactly as the source does. -/
def setSkillLevel (profile : Position × SquadHierarchy) (ts sd r : ℚ) : ℚ :=
  if profile.2 = SquadHierarchy.STARTER then
    SkillConstraint.getStarterSkill ⟨ts, sd⟩ r
  else if profile.2 = SquadHierarchy.SUB then
    SkillConstraint.getSubSkill ⟨ts, sd⟩ r
  else
    SkillConstraint.getAcademySkill ⟨ts, sd⟩ r

/-- `PlayerGenerator._get_injury_proneness`: a normal draw, with any
negative draw replaced by `0.01`. The draw itself is a parameter. -/
def getInjuryProneness (draw : ℚ) : ℚ := if draw < 0 then 0.01 else draw

/-- `PlayerGenerator.create_player`. All random draws are explicit
parameters: `contractDraw` is the accepted `randint` result, `ageDraw` the
accepted rejection-sampled age, `rSkill` and `rPot` the unit draws of the
skill and potential `random.uniform` calls, `injuryDraw` the raw normal
draw for injury proneness. -/
def createPlayer (profile : Position × SquadHierarchy) (ts sd : ℚ) (name : String)
    (contractDraw : ℤ) (ageDraw rSkill rPot injuryDraw : ℚ) : Player :=
  let contract_years : ℚ := (contractDraw : ℚ)
  let age := ageDraw
  let skill_level := setSkillLevel profile ts sd rSkill
  let potential_level := PotentialConstraint.getPotential ⟨age, skill_level, sd⟩ rPot
  let injury := getInjuryProneness injuryDraw
  { player_name := name
    contract_years := contract_years
    age := age
    position := profile.1
    skill_level := skill_level
    potential_level := potential_level
    player_value := predictValueOnce age contract_years skill_level potential_level injury
    squad_hierarchy := profile.2
    injury_proneness := injury }

/-- One row of the league-wide player table used by the simulators in
`run.py`: the `Player` columns plus the simulation-added columns `team`,
`my_team`, `n_matches`, `minutes`, `xPoints`, and the `skill_bonus` column
written by `TransferWindowSimulator._update_skill`. -/
structure Row where
  player_name : String
  team : String
  my_team : Bool
  contract_years : ℚ
  age : ℚ
  position : Position
  skill_level : ℚ
  potential_level : ℚ
  player_value : ℚ
  squad_hierarchy : SquadHierarchy
  injury_proneness : ℚ
  n_matches : ℚ
  minutes : ℚ
  xPoints : ℚ
  skill_bonus : ℚ
deriving DecidableEq

/-- `TransferWindowSimulator._decrease_contract_step`:
`self._league_players["contract_years"] -= step` over the whole table. -/
def decreaseContractStep (step : ℚ) (rows : List Row) : List Row :=
  rows.map fun r => { r with contract_years := r.contract_years - step }

/-- `TransferWindowSimulator._update_age`:
`self._league_players.loc[:, "age"] += step` over the whole table. -/
def updateAge (step : ℚ) (rows : List Row) : List Row :=
  rows.map fun r => { r with age := r.age + step }

/-- `TransferWindowSimulator._update_skill` on one row. -/
def updateSkillRow (r : Row) : Row :=
  let bonus := r.xPoints / (r.n_matches * 3) * (r.minutes / 10)
  let r := { r with skill_bonus := bonus }
  if r.skill_level + bonus < r.potential_level then
    { r with skill_level := r.skill_level + bonus }
  else r

/-- `TransferWindowSimulator._update_transfer_value` on one row: a fresh
`ValuePredictor` over the row's current attributes. -/
def updateTransferValueRow (r : Row) : ℚ :=
  predictValueOnce r.age r.contract_years r.skill_level r.potential_level r.injury_proneness

/-- `TransferWindowSimulator.update_players(step)`: decrement contracts,
increment ages, apply the skill update row-wise, then recompute the
`player_value` column row-wise. -/
def updatePlayers (step : ℚ) (rows : List Row) : List Row :=
  let rows := decreaseContractStep step rows
  let rows := updateAge step rows
  let rows := rows.map updateSkillRow
  rows.map fun r => { r with player_value := updateTransferValueRow r }

/-- `TransferWindowSimulator.updated_players`: the full table, or only the
managed team's rows when `my_team_only` is set. -/
def updatedPlayers (my_team_only : Bool) (rows : List Row) : List Row :=
  if my_team_only then rows.filter (·.my_team) else rows

/-- `LeagueSimulator.run_transfer_window`: builds a
`TransferWindowSimulator` over a copy of the league table with the default
`my_team_only = True`, runs `update_players(0.5)` on that copy, and returns
`updated_players` — the managed team's slice of the copy. The league table
held by the `LeagueSimulator` itself is not written. -/
def runTransferWindow (league_players : List Row) : List Row :=
  updatedPlayers true (updatePlayers 0.5 league_players)

/-- `LeagueSimulator.update_end_of_transfer_window(df_players)`: drop the
managed team's rows from the league table and concatenate the supplied
slice. -/
def updateEndOfTransferWindow (league_players df_players : List Row) (my_team : String) :
    List Row :=
  league_players.filter (fun r => r.team != my_team) ++ df_players

/-- `virtualtd.simulators.run.DecisionSimulator` state: the squad table,
the spendable balance and the team name. -/
structure DecisionSimulator where
  players : List Row
  money_to_spend : ℚ
  team_name : String
deriving DecidableEq

/-- The two filters run by `DecisionSimulator._auto_termination` and
`DecisionSimulator._auto_terminate_academy_players`, in source order. -/
def autoTerminationFilter (rows : List Row) : List Row :=
  let rows := rows.filter fun r => decide (r.contract_years > 0) && decide (r.age < 35)
  rows.filter fun r =>
    (r.squad_hierarchy == SquadHierarchy.SUB || r.squad_hierarchy == SquadHierarchy.STARTER)
      || decide (r.age < 21)

/-- `DecisionSimulator.__init__`: store the squad, run auto-termination,
start with a zero spendable balance. -/
def DecisionSimulator.init (squad_players : List Row) (team_name : String) :
    DecisionSimulator :=
  { players := autoTerminationFilter squad_players
    money_to_spend := 0
    team_name := team_name }

/-- pandas `DataFrame.empty` — a property holding a `Bool`. -/
def dfEmpty (rows : List Row) : Bool := rows.isEmpty

/-- Python call semantics applied to a `Bool` value: a `bool` is not
callable, so the call raises `TypeError`. `_validate_transfer` writes
`....empty()`, calling the Bool held by the `empty` property. -/
def pyCallBool (_ : Bool) : Except String Bool :=
  Except.error "TypeError"

/-- One element of `buy_players`' `buy_list`: a dict with keys `player`,
`squad_hierarchy` and `contract`. -/
structure Transfer where
  player : Player
  squad_hierarchy : SquadHierarchy
  contract : ℚ
deriving DecidableEq

/-- `DecisionSimulator._validate_transfer`. Both operands of `&` are
evaluated; the right operand calls the `empty` property's Bool, which
raises `TypeError` in Python, so the whole check raises. -/
def validateTransfer (st : DecisionSimulator) (p : Player) : Except String Bool := do
  let cell := st.players.filter fun r =>
    (r.position == p.position) && (r.squad_hierarchy == p.squad_hierarchy)
  let e ← pyCallBool (dfEmpty cell)
  pure (decide (p.player_value < st.money_to_spend) && e)

/-- `DecisionSimulator._add_player_to_squad`. The appended dict has no
`skill_bonus` key (pandas would fill `NaN`); the embedding writes 0 there. -/
def addPlayerToSquad (st : DecisionSimulator) (transfer : Transfer) : DecisionSimulator :=
  { st with players := st.players ++ [{
      player_name := transfer.player.player_name
      contract_years := transfer.contract
      age := transfer.player.age
      position := transfer.player.position
      skill_level := transfer.player.skill_level
      potential_level := transfer.player.potential_level
      player_value := transfer.player.player_value
      squad_hierarchy := transfer.squad_hierarchy
      injury_proneness := transfer.player.injury_proneness
      team := st.team_name
      n_matches := 0
      my_team := true
      minutes := 0
      xPoints := 0
      skill_bonus := 0 }] }

/-- `DecisionSimulator.buy_players`: process the buy list in order; a valid
transfer deducts its value and appends the player, an invalid one is
skipped. An uncaught exception from `_validate_transfer` aborts the loop. -/
def buyPlayers (st : DecisionSimulator) (buy_list : List Transfer) :
    Except String DecisionSimulator :=
  match buy_list with
  | [] => pure st
  | transfer :: rest => do
      let ok ← validateTransfer st transfer.player
      let st :=
        if ok then
          addPlayerToSquad { st with money_to_spend := st.money_to_spend - transfer.player.player_value } transfer
        else st
      buyPlayers st rest

/-- A managed-team row used to exercise the league transfer-window flow. -/
def c2RowAlice : Row :=
  { player_name := "Alice", team := "FC Mine", my_team := true, contract_years := 2
    age := 20, position := Position.STRIKER, skill_level := 50, potential_level := 60
    player_value := 0, squad_hierarchy := SquadHierarchy.STARTER, injury_proneness := 0
    n_matches := 1, minutes := 70, xPoints := 3, skill_bonus := 0 }

/-- An other-team row used to exercise the league transfer-window flow. -/
def c2RowBob : Row :=
  { player_name := "Bob", team := "FC Other", my_team := false, contract_years := 2
    age := 20, position := Position.STRIKER, skill_level := 50, potential_level := 60
    player_value := 0, squad_hierarchy := SquadHierarchy.STARTER, injury_proneness := 0
    n_matches := 1, minutes := 70, xPoints := 3, skill_bonus := 0 }

/-- A proposed signing whose target cell is empty and whose value is within
the balance — a buy the validation logic is supposed to accept. -/
def c3Candidate : Player :=
  { player_name := "Casey", contract_years := 3, age := 24
    position := Position.GOALKEEPER, skill_level := 50, potential_level := 70
    player_value := 10, squad_hierarchy := SquadHierarchy.SUB, injury_proneness := 0 }

/-- A decision-simulator state with an empty squad and a positive balance. -/
def c3State : DecisionSimulator :=
  { players := [], money_to_spend := 100, team_name := "FC Test" }

/-- The buy-list entry proposing `c3Candidate`. -/
def c3Buy : Transfer :=
  { player := c3Candidate, squad_hierarchy := SquadHierarchy.SUB, contract := 3 }

/-- A well-formed player row for the transfer-window skill update. -/
def c8Row : Row :=
  { player_name := "Avery", team := "FC Test", my_team := true, contract_years := 2
    age := 20, position := Position.STRIKER, skill_level := 50, potential_level := 60
    player_value := 0, squad_hierarchy := SquadHierarchy.STARTER, injury_proneness := 0
    n_matches := 1, minutes := 70, xPoints := 3, skill_bonus := 0 }

/-- `pyUniform lo hi r` stays inside `[lo, hi]` for a unit draw `r`. -/
theorem pyUniform_bounds (lo hi r : ℚ) (hlh : lo ≤ hi) (hr0 : 0 ≤ r) (hr1 : r ≤ 1) :
    lo ≤ pyUniform lo hi r ∧ pyUniform lo hi r ≤ hi := by
  unfold pyUniform
  constructor
  · nlinarith [mul_nonneg hr0 (sub_nonneg.mpr hlh)]
  · nlinarith [mul_nonneg (sub_nonneg.mpr hr1) (sub_nonneg.mpr hlh)]

/-- The window returned by `_get_valid_range` is well-ordered, lies above 0
and below `team_strength + range_k`, provided the shift is non-negative and
`team_strength + range_k < 100`. -/
theorem getValidRange_bounds (ts sd k shift : ℚ) (hts0 : 0 ≤ ts) (hk : 0 ≤ k)
    (hsh : 0 ≤ shift) (hcap : ts + k < 100) :
    0 ≤ (SkillConstraint.getValidRange ⟨ts, sd⟩ k shift).1 ∧
    (SkillConstraint.getValidRange ⟨ts, sd⟩ k shift).1 ≤
      (SkillConstraint.getValidRange ⟨ts, sd⟩ k shift).2 ∧
    (SkillConstraint.getValidRange ⟨ts, sd⟩ k shift).2 ≤ ts + k := by
  simp only [SkillConstraint.getValidRange]
  split_ifs with h1 h2 h2 <;> refine ⟨by linarith, by linarith, by linarith⟩

/-- Skill generation stays in `[0, team_strength + 0.5·sd]` for every tier,
whenever `team_strength ≥ 0`, `sd > 0` and `team_strength + 0.5·sd < 100`. -/
theorem setSkillLevel_bounds (profile : Position × SquadHierarchy) (ts sd r : ℚ)
    (hts0 : 0 ≤ ts) (hsd : 0 < sd) (hcap : ts + 0.5 * sd < 100)
    (hr0 : 0 ≤ r) (hr1 : r ≤ 1) :
    0 ≤ setSkillLevel profile ts sd r ∧ setSkillLevel profile ts sd r ≤ ts + 0.5 * sd := by
  have hk : (0:ℚ) ≤ 0.5 * sd := by linarith
  unfold setSkillLevel SkillConstraint.getStarterSkill SkillConstraint.getSubSkill
    SkillConstraint.getAcademySkill
  split_ifs with h1 h2 <;> dsimp only
  · have hb := getValidRange_bounds ts sd (0.5 * sd) 0 hts0 hk le_rfl hcap
    have hu := pyUniform_bounds _ _ r hb.2.1 hr0 hr1
    exact ⟨le_trans hb.1 hu.1, le_trans hu.2 hb.2.2⟩
  · have hb := getValidRange_bounds ts sd (0.5 * sd) sd hts0 hk (le_of_lt hsd) hcap
    have hu := pyUniform_bounds _ _ r hb.2.1 hr0 hr1
    exact ⟨le_trans hb.1 hu.1, le_trans hu.2 hb.2.2⟩
  · have hb := getValidRange_bounds ts sd (0.5 * sd) (1.5 * sd) hts0 hk (by linarith) hcap
    have hu := pyUniform_bounds _ _ r hb.2.1 hr0 hr1
    exact ⟨le_trans hb.1 hu.1, le_trans hu.2 hb.2.2⟩

/-- `pyTrunc` is the identity on integral rationals. -/
theorem pyTrunc_intCast (n : ℤ) : pyTrunc ((n : ℚ)) = n := by
  unfold pyTrunc
  rw [Int.floor_intCast, Int.ceil_intCast, ite_self]

/-- C1: `MatchSimulator.simulate_line_up` is claimed to return (home mean
skill, away mean skill). Evaluating the embedding at a failing input —
one iteration, a home line-up of mean skill 10 and an away line-up of mean
skill 20 — the source returns the home mean in both components: (10, 10)
instead of the claimed (10, 20). -/
theorem simulate_line_up_returns_home_mean_twice :
    simulateLineUp (fun _ => [10]) (fun _ => [20]) 1 = (10, 10) ∧
    listMean [20] = 20 ∧ (10 : ℚ) ≠ 20 := by
  refine ⟨?_, ?_, by norm_num⟩
  · simp only [simulateLineUp, listMean, List.range_succ, List.range_zero, List.nil_append,
      List.map_cons, List.map_nil, List.sum_cons, List.sum_nil, List.length_cons,
      List.length_nil, Prod.mk.injEq]
    norm_num
  · simp only [listMean, List.sum_cons, List.sum_nil, List.length_cons, List.length_nil]
    norm_num

/-- C4: for every pair of skill levels, after
`MatchPredictor.generate_prob_distribution` the draw, home-win and away-win
probabilities sum to exactly 100 in rational arithmetic. -/
theorem prob_distribution_sums_to_100 (a b : ℚ) :
    (MatchPredictor.generateProbDistribution (MatchPredictor.init a b)).draw_prob +
      (MatchPredictor.generateProbDistribution (MatchPredictor.init a b)).win_prob_a +
      (MatchPredictor.generateProbDistribution (MatchPredictor.init a b)).win_prob_b = 100 := by
  simp only [MatchPredictor.generateProbDistribution, MatchPredictor.init,
    MatchPredictor.setDrawProbability, MatchPredictor.setWinProbability]
  ring

/-- C5 (counterexample): at skills a = 0, b = 100 — both in [0,100] and
with |a − b| ≤ 100 as the claim demands — the home-team win probability of
`generate_prob_distribution` is negative, refuting the claim. -/
theorem win_prob_negative_within_claimed_bounds :
    ((0:ℚ) ≤ 0 ∧ (0:ℚ) ≤ 100 ∧ (0:ℚ) ≤ 100 ∧ (100:ℚ) ≤ 100 ∧ |(0:ℚ) - 100| ≤ 100) ∧
    (MatchPredictor.generateProbDistribution (MatchPredictor.init 0 100)).win_prob_a < 0 := by
  have habs : |(0:ℚ) / 100 - 100 / 100| = 1 := by
    rw [show (0:ℚ) / 100 - 100 / 100 = -1 by norm_num, abs_neg, abs_one]
  refine ⟨⟨le_rfl, by norm_num, by norm_num, le_rfl, ?_⟩, ?_⟩
  · rw [abs_le]
    constructor <;> norm_num
  · simp only [MatchPredictor.generateProbDistribution, MatchPredictor.init,
      MatchPredictor.setDrawProbability, MatchPredictor.setWinProbability, habs]
    norm_num

/-- C5 (amended): for skills a, b in [0,100] with |a − b| ≤ 50, the three
outputs of `generate_prob_distribution` are each non-negative. -/
theorem prob_distribution_nonneg_within_50 (a b : ℚ) (ha0 : 0 ≤ a) (ha1 : a ≤ 100)
    (hb0 : 0 ≤ b) (hb1 : b ≤ 100) (hab : |a - b| ≤ 50) :
    0 ≤ (MatchPredictor.generateProbDistribution (MatchPredictor.init a b)).draw_prob ∧
    0 ≤ (MatchPredictor.generateProbDistribution (MatchPredictor.init a b)).win_prob_a ∧
    0 ≤ (MatchPredictor.generateProbDistribution (MatchPredictor.init a b)).win_prob_b := by
  have h1 := (abs_le.mp hab).1
  have h2 := (abs_le.mp hab).2
  have h3 : 0 ≤ |a / 100 - b / 100| := abs_nonneg _
  have h4 : |a / 100 - b / 100| ≤ 1 / 2 := by
    have he : a / 100 - b / 100 = (a - b) / 100 := by ring
    rw [he, abs_div, show |(100:ℚ)| = 100 from by norm_num,
      div_le_iff₀ (by norm_num : (0:ℚ) < 100)]
    linarith
  simp only [MatchPredictor.generateProbDistribution, MatchPredictor.init,
    MatchPredictor.setDrawProbability, MatchPredictor.setWinProbability]
  refine ⟨mul_nonneg (by norm_num) h3, mul_nonneg ?_ ?_, mul_nonneg ?_ ?_⟩
  · apply div_nonneg _ (by norm_num : (0:ℚ) ≤ 100)
    linarith
  · linarith
  · apply div_nonneg _ (by norm_num : (0:ℚ) ≤ 100)
    linarith
  · linarith

/-- C5 (witness): the amended non-negativity theorem applied at the
concrete skills a = 70, b = 60. -/
theorem prob_distribution_nonneg_within_50_witness :
    ((0:ℚ) ≤ 70 ∧ (70:ℚ) ≤ 100 ∧ (0:ℚ) ≤ 60 ∧ (60:ℚ) ≤ 100 ∧ |(70:ℚ) - 60| ≤ 50) ∧
    (0 ≤ (MatchPredictor.generateProbDistribution (MatchPredictor.init 70 60)).draw_prob ∧
     0 ≤ (MatchPredictor.generateProbDistribution (MatchPredictor.init 70 60)).win_prob_a ∧
     0 ≤ (MatchPredictor.generateProbDistribution (MatchPredictor.init 70 60)).win_prob_b) :=
  ⟨⟨by norm_num, by norm_num, by norm_num, by norm_num,
     by rw [abs_le]; constructor <;> norm_num⟩,
   prob_distribution_nonneg_within_50 70 60 (by norm_num) (by norm_num) (by norm_num)
     (by norm_num) (by rw [abs_le]; constructor <;> norm_num)⟩

/-- C10: `ValuePredictor.predict_player_value` is claimed side-effect-free.
In the source, `_get_contract_multiplier` overwrites `self._contract` with
its month count, so a second call on the same predictor multiplies the
stored months by 12 again: for (age 27, contract 2 years, skill 1,
potential 1, injury 0, base 1000) the first call returns 2500 and the
second 1125. -/
theorem predict_player_value_second_call_differs :
    (ValuePredictor.predictPlayerValue ⟨27, 2, 1, 1, 0, 1000⟩).1 = 2500 ∧
    (ValuePredictor.predictPlayerValue
      (ValuePredictor.predictPlayerValue ⟨27, 2, 1, 1, 0, 1000⟩).2).1 = 1125 ∧
    (2500 : ℚ) ≠ 1125 := by
  have h24 : pyTrunc ((2:ℚ) * 12) = 24 := by
    rw [show (2:ℚ) * 12 = ((24:ℤ) : ℚ) by norm_num, pyTrunc_intCast]
  have h288 : pyTrunc (((24:ℤ) : ℚ) * 12) = 288 := by
    rw [show ((24:ℤ) : ℚ) * 12 = ((288:ℤ) : ℚ) by norm_num, pyTrunc_intCast]
  refine ⟨?_, ?_, by norm_num⟩ <;>
    simp only [ValuePredictor.predictPlayerValue, ValuePredictor.getSkillValue,
      ValuePredictor.getPotentialValue, ValuePredictor.getAgeMultiplier,
      ValuePredictor.getContractMultiplier, ValuePredictor.getInjuryMultiplier,
      h24, h288] <;>
    norm_num

/-- C7: `get_sub_skill` is claimed to stay within
[max(0, ts − 1.5·sd), min(100, ts − 0.5·sd)]. For team strength 50, sd 10
and the top unit draw, the source returns 55 — `_get_valid_range` computes
the upper bound from the unshifted team strength (50 + 5), contradicting
the window [35, 45] documented on `get_sub_skill` itself. -/
theorem sub_skill_exceeds_documented_window :
    ((0:ℚ) ≤ 1 ∧ (1:ℚ) ≤ 1) ∧
    SkillConstraint.getSubSkill ⟨50, 10⟩ 1 = 55 ∧
    ¬(SkillConstraint.getSubSkill ⟨50, 10⟩ 1 ≤ min 100 (50 - 0.5 * 10)) := by
  have h : SkillConstraint.getSubSkill ⟨50, 10⟩ 1 = 55 := by
    simp only [SkillConstraint.getSubSkill, SkillConstraint.getValidRange, pyUniform]
    split_ifs <;> norm_num at *
  have hmin : min (100:ℚ) (50 - 0.5 * 10) = 45 := by
    rw [min_eq_right (by norm_num : (50:ℚ) - 0.5 * 10 ≤ 100)]
    norm_num
  refine ⟨⟨by norm_num, le_rfl⟩, h, ?_⟩
  rw [h, hmin]
  norm_num

/-- C9: after `DecisionSimulator` construction the retained players are
exactly those with a running contract, age below 35, and either a
starter/sub role or age below 21. -/
theorem auto_termination_retained_iff (squad : List Row) (team : String) (r : Row) :
    r ∈ (DecisionSimulator.init squad team).players ↔
      r ∈ squad ∧ 0 < r.contract_years ∧ r.age < 35 ∧
        (r.squad_hierarchy = SquadHierarchy.STARTER ∨ r.squad_hierarchy = SquadHierarchy.SUB ∨
          r.age < 21) := by
  simp only [DecisionSimulator.init, autoTerminationFilter, List.mem_filter,
    Bool.and_eq_true, Bool.or_eq_true, decide_eq_true_eq, beq_iff_eq]
  tauto

/-- C8: a row with skill ≤ potential, non-negative xPoints and minutes and
a positive match count still satisfies skill ≤ potential after
`TransferWindowSimulator.update_players`: the skill bonus is only applied
when the result stays below potential. -/
theorem update_players_preserves_skill_le_potential (step : ℚ) (rows : List Row)
    (h : ∀ r ∈ rows, r.skill_level ≤ r.potential_level ∧ 0 ≤ r.xPoints ∧
      0 ≤ r.minutes ∧ 0 < r.n_matches) :
    ∀ s ∈ updatePlayers step rows, s.skill_level ≤ s.potential_level := by
  intro s hs
  simp only [updatePlayers, decreaseContractStep, updateAge, List.map_map,
    List.mem_map, Function.comp_apply] at hs
  obtain ⟨r, hr, rfl⟩ := hs
  have h1 := (h r hr).1
  simp only [Function.comp_apply, updateSkillRow]
  split_ifs with hB
  · exact le_of_lt hB
  · exact h1

/-- C8 (witness): the preservation theorem applied to a one-row table with
skill 50, potential 60, xPoints 3, minutes 70 and one match played. -/
theorem update_players_preserves_skill_le_potential_witness :
    (∀ r ∈ [c8Row], r.skill_level ≤ r.potential_level ∧ 0 ≤ r.xPoints ∧
      0 ≤ r.minutes ∧ 0 < r.n_matches) ∧
    (∀ s ∈ updatePlayers 0.5 [c8Row], s.skill_level ≤ s.potential_level) := by
  have hhyp : ∀ r ∈ [c8Row], r.skill_level ≤ r.potential_level ∧ 0 ≤ r.xPoints ∧
      0 ≤ r.minutes ∧ 0 < r.n_matches := by
    intro r hr
    simp only [List.mem_singleton] at hr
    subst hr
    refine ⟨by norm_num [c8Row], by norm_num [c8Row], by norm_num [c8Row], by norm_num [c8Row]⟩
  exact ⟨hhyp, update_players_preserves_skill_le_potential 0.5 [c8Row] hhyp⟩

/-- C3: `buy_players` is claimed to validate each candidate and continue
with the next one. In the source `_validate_transfer` calls `.empty()` on a
data frame — `empty` is a property holding a bool, so Python raises
`TypeError` on the very first candidate, even for a buy that satisfies both
validation conditions (empty target cell, value 10 below balance 100). -/
theorem buy_players_raises_type_error :
    buyPlayers c3State [c3Buy] = Except.error "TypeError" ∧
    dfEmpty (c3State.players.filter fun r =>
      (r.position == c3Candidate.position) &&
        (r.squad_hierarchy == c3Candidate.squad_hierarchy)) = true ∧
    c3Candidate.player_value < c3State.money_to_spend := by
  refine ⟨rfl, rfl, by norm_num [c3Candidate, c3State]⟩

/-- C2: after `LeagueSimulator.run_transfer_window` followed by
`update_end_of_transfer_window`, the other teams' rows are re-inserted from
the untouched league table: Bob (team "FC Other") survives with
contract_years still 2 and age still 20, not 1.5 and 20.5 as claimed —
`run_transfer_window` mutates only a copy and returns only the managed
team's slice. -/
theorem transfer_window_leaves_other_teams_unchanged :
    c2RowBob ∈ updateEndOfTransferWindow [c2RowAlice, c2RowBob]
        (runTransferWindow [c2RowAlice, c2RowBob]) "FC Mine" ∧
    c2RowBob.contract_years = 2 ∧ c2RowBob.age = 20 ∧
    ¬(c2RowBob.contract_years = 2 - 0.5) := by
  refine ⟨?_, rfl, rfl, by norm_num [c2RowBob]⟩
  unfold updateEndOfTransferWindow
  apply List.mem_append_left
  apply List.mem_filter.mpr
  refine ⟨by simp, by simp [c2RowBob]⟩

/-- C6 (counterexample): with team strength 100 (within [0,100]), sd 10 and
a starter profile, an age draw of 26 and top unit draws give skill 100 and
a prime-age potential of 110 — the claim's bound potential ≤ 100 fails. -/
theorem create_player_potential_exceeds_100 :
    ((0:ℚ) ≤ 100 ∧ (100:ℚ) ≤ 100 ∧ (0:ℚ) < 10 ∧
      (18:ℚ) ≤ 26 ∧ (26:ℚ) ≤ 35 ∧ (0:ℚ) ≤ 1 ∧ (1:ℚ) ≤ 1) ∧
    (createPlayer (Position.STRIKER, SquadHierarchy.STARTER) 100 10 "Max" 3 26 1 1
      (1/20)).potential_level = 110 ∧
    ¬((createPlayer (Position.STRIKER, SquadHierarchy.STARTER) 100 10 "Max" 3 26 1 1
      (1/20)).potential_level ≤ 100) := by
  have hpot : (createPlayer (Position.STRIKER, SquadHierarchy.STARTER) 100 10 "Max" 3 26 1 1
      (1/20)).potential_level = 110 := by
    simp only [createPlayer, setSkillLevel, SkillConstraint.getStarterSkill,
      SkillConstraint.getValidRange, PotentialConstraint.getPotential,
      PotentialConstraint.getYoungPlayerPotential, PotentialConstraint.getPrimePlayerPotential,
      PotentialConstraint.getOldPlayerPotential, pyUniform]
    split_ifs <;> norm_num at *
  refine ⟨⟨by norm_num, le_rfl, by norm_num, by norm_num, by norm_num, by norm_num, le_rfl⟩,
    hpot, ?_⟩
  rw [hpot]
  norm_num

/-- C6 (amended): for team strength in [0,100] and sd > 0 with
team_strength + 1.5·sd ≤ 100, every player produced by
`PlayerGenerator.create_player` (with unit draws in [0,1]) satisfies
skill_level ≤ potential_level ≤ 100. -/
theorem create_player_skill_potential_bounds (profile : Position × SquadHierarchy)
    (ts sd : ℚ) (name : String) (contractDraw : ℤ) (ageDraw rSkill rPot injuryDraw : ℚ)
    (hts0 : 0 ≤ ts) (hts1 : ts ≤ 100) (hsd : 0 < sd) (hcap : ts + 1.5 * sd ≤ 100)
    (hr0 : 0 ≤ rSkill) (hr1 : rSkill ≤ 1) (hp0 : 0 ≤ rPot) (hp1 : rPot ≤ 1) :
    (createPlayer profile ts sd name contractDraw ageDraw rSkill rPot injuryDraw).skill_level ≤
      (createPlayer profile ts sd name contractDraw ageDraw rSkill rPot injuryDraw).potential_level ∧
    (createPlayer profile ts sd name contractDraw ageDraw rSkill rPot injuryDraw).potential_level ≤
      100 := by
  have hcap2 : ts + 0.5 * sd < 100 := by linarith
  have hsk := setSkillLevel_bounds profile ts sd rSkill hts0 hsd hcap2 hr0 hr1
  have hsk100 : setSkillLevel profile ts sd rSkill ≤ 100 := by linarith [hsk.2]
  simp only [createPlayer, PotentialConstraint.getPotential,
    PotentialConstraint.getYoungPlayerPotential, PotentialConstraint.getPrimePlayerPotential,
    PotentialConstraint.getOldPlayerPotential]
  split_ifs with hAge hPrime
  · have hu := pyUniform_bounds (setSkillLevel profile ts sd rSkill) 100 rPot hsk100 hp0 hp1
    exact ⟨hu.1, hu.2⟩
  · have hu := pyUniform_bounds (setSkillLevel profile ts sd rSkill)
      (setSkillLevel profile ts sd rSkill + sd) rPot (by linarith) hp0 hp1
    exact ⟨hu.1, by linarith [hu.2, hsk.2]⟩
  · exact ⟨le_rfl, hsk100⟩

/-- C6 (witness): the amended bounds theorem applied to a sub-tier player
of a team with strength 50 and sd 10 (50 + 1.5·10 ≤ 100), age draw 26 and
mid-range unit draws. -/
theorem create_player_skill_potential_bounds_witness :
    ((0:ℚ) ≤ 50 ∧ (50:ℚ) ≤ 100 ∧ (0:ℚ) < 10 ∧ (50:ℚ) + 1.5 * 10 ≤ 100 ∧
      (0:ℚ) ≤ 1/2 ∧ (1/2:ℚ) ≤ 1) ∧
    ((createPlayer (Position.GOALKEEPER, SquadHierarchy.SUB) 50 10 "Sam" 3 26 (1/2) (1/2)
        (1/20)).skill_level ≤
      (createPlayer (Position.GOALKEEPER, SquadHierarchy.SUB) 50 10 "Sam" 3 26 (1/2) (1/2)
        (1/20)).potential_level ∧
     (createPlayer (Position.GOALKEEPER, SquadHierarchy.SUB) 50 10 "Sam" 3 26 (1/2) (1/2)
        (1/20)).potential_level ≤ 100) :=
  ⟨by norm_num,
   create_player_skill_potential_bounds (Position.GOALKEEPER, SquadHierarchy.SUB) 50 10 "Sam"
     3 26 (1/2) (1/2) (1/20) (by norm_num) (by norm_num) (by norm_num) (by norm_num)
     (by norm_num) (by norm_num) (by norm_num) (by norm_num)⟩

end VirtualTD
